import Mathlib

/-!
# Verification of the Juice Shop hardened startup script (`app.ts`)

A shallow embedding of `src/app.ts`: the optional npm-audit enforcement
(`runOptionalAuditCheck`), the deadline-raced server start
(`startServerWithTimeout`), the fail-fast bootstrap pipeline (`app`), the
global fault handlers, and the idempotent graceful-shutdown handler
(`shutdown`).

Modelling conventions:
* A JS promise is modelled by its eventual settlement: `none` for a promise
  that never settles, `some (t, o)` for a promise settling at time `t`
  (milliseconds, `Int`) with outcome `o` (resolved, or rejected with an
  error message).
* Environment variables are `Option String` (`none` = unset).
* The external world (outcome of `spawnSync`, of `JSON.parse`, of the
  dynamic imports, of the validator, of `server.start()`) is supplied as
  explicit input data, so every function is total and executable.
* `process.exit` is modelled by recording an exit code; code that JS would
  never reach after `process.exit` is simply not modelled past that point.
-/

namespace JuiceShopStartup

/-- Outcome of a settled promise: fulfilled, or rejected with an error
message (the `message` of the JS `Error`). -/
inductive Outcome where
  | resolved : Outcome
  | rejected : String → Outcome
deriving DecidableEq, Repr

/-- A promise, modelled by its eventual settlement: `none` never settles;
`some (t, o)` settles at time `t` ms with outcome `o`. -/
abbrev PromiseT := Option (Int × Outcome)

/-- `Promise.race [p, q]`: the earlier settlement wins.  On a tie the first
promise in the array wins (in the source the start promise is listed
first); the loser is abandoned, never cancelled. -/
def race (p q : PromiseT) : PromiseT :=
  match p, q with
  | none, none => none
  | some a, none => some a
  | none, some b => some b
  | some (t₁, o₁), some (t₂, o₂) =>
      if t₁ ≤ t₂ then some (t₁, o₁) else some (t₂, o₂)

/-- `startServerWithTimeout` (src/app.ts:66-72): races the server's
`start()` promise against a `setTimeout` that rejects with
`Error('Server start timed out')` after `timeoutMs`. -/
def startServerWithTimeout (startP : PromiseT) (timeoutMs : Int) : PromiseT :=
  race startP (some (timeoutMs, Outcome.rejected "Server start timed out"))

/-- A promise settles strictly before time `d`. -/
def settlesBefore (p : PromiseT) (d : Int) : Bool :=
  match p with
  | some (t, _) => t < d
  | none => false

/-- A promise resolves successfully (is fulfilled). -/
def isSuccess (p : PromiseT) : Bool :=
  match p with
  | some (_, Outcome.resolved) => true
  | _ => false

/-! ## Audit check (`runOptionalAuditCheck`, src/app.ts:20-51) -/

/-- The `{ok, message, details?}` record returned by the audit check. -/
structure StartupResult where
  ok : Bool
  message : String
  details : Option String := none
deriving DecidableEq, Repr

/-- Result of `spawnSync('npm', ['audit', '--json', '--production'], …)`:
`error` is `res.error` (set when npm failed to execute), `stdout` the
captured output (`""` is falsy in JS, matching `!res.stdout`). -/
structure SpawnRes where
  error : Option String
  stdout : String
deriving DecidableEq, Repr

/-- The part of the parsed audit JSON that the code inspects:
`metadataVulns = some vs` when both `audit.metadata` and
`audit.metadata.vulnerabilities` are present (truthy), with `vs` the list
of vulnerability counts (`Object.values`); `none` otherwise. -/
structure AuditJson where
  metadataVulns : Option (List Int)
deriving DecidableEq, Repr

/-- `totalVulns` (src/app.ts:41): sums the vulnerability counts with
`reduce((a, b) => a + b, 0)`; the `|| 0` yields `0` when `metadata` or
`vulnerabilities` is missing (a falsy sum is also mapped to `0`, which for
integers coincides with the sum itself). -/
def totalVulns (j : AuditJson) : Int :=
  match j.metadataVulns with
  | some vs => vs.foldl (· + ·) 0
  | none => 0

/-- The environment and external-world data that `runOptionalAuditCheck`
consumes: the `ENFORCE_AUDIT` variable, the `spawnSync` result, and what
`JSON.parse` would yield on `spawn.stdout` (`Except.error` when
`JSON.parse` would throw; the throw is caught by the surrounding
`try`/`catch`). -/
structure AuditWorld where
  enforceAudit : Option String
  spawn : SpawnRes
  parse : Except Unit AuditJson
deriving Repr

/-- `runOptionalAuditCheck` (src/app.ts:20-51).  Returns the
`StartupResult` together with a flag recording whether the external audit
tool was invoked.  The embedding is a total function: every failure is
reported in the return value, mirroring the source's `try`/`catch` that
converts any throw into `{ok:false, message:'audit check failed'}`. -/
def runOptionalAuditCheck (w : AuditWorld) : StartupResult × Bool :=
  if w.enforceAudit ≠ some "true" then
    (⟨true, "audit skipped", none⟩, false)
  else
    match w.spawn.error with
    | some m => (⟨false, "Failed to execute npm audit", some m⟩, true)
    | none =>
      if w.spawn.stdout = "" then
        (⟨true, "no audit output", none⟩, true)
      else
        match w.parse with
        | Except.error _ =>
            (⟨false, "audit check failed", some "SyntaxError"⟩, true)
        | Except.ok audit =>
            if totalVulns audit > 0 then
              (⟨false, "npm audit found " ++ toString (totalVulns audit) ++
                        " vulnerabilities", none⟩, true)
            else
              (⟨true, "npm audit passed", none⟩, true)

/-- The failure condition named by the spec: the tool failed to execute,
the (attempted) JSON parse of its output failed, or the summed
vulnerability count is positive. -/
def auditFailCondition (w : AuditWorld) : Prop :=
  w.spawn.error.isSome = true ∨
  (w.spawn.stdout ≠ "" ∧ w.parse.toOption = none) ∨
  (∃ j, w.parse = Except.ok j ∧ w.spawn.stdout ≠ "" ∧ 0 < totalVulns j)

/-! ## `STARTUP_TIMEOUT_MS` (src/app.ts:96) -/

/-- Digit-string to `Nat`: `none` unless the list is a nonempty run of
decimal digits. -/
def digitsToNat (cs : List Char) : Option Nat :=
  if cs = [] then none
  else if cs.all Char.isDigit then
    some (cs.foldl (fun n c => 10 * n + (c.toNat - Char.toNat '0')) 0)
  else none

/-- JS whitespace characters stripped by `Number()`. -/
def isJsSpace (c : Char) : Bool :=
  c = ' ' || c = '\t' || c = '\n' || c = '\r'

/-- Strip leading and trailing whitespace from a character list. -/
def trimChars (cs : List Char) : List Char :=
  ((cs.dropWhile isJsSpace).reverse.dropWhile isJsSpace).reverse

/-- Model of the JS `Number()` coercion on an environment variable, on the
integer fragment: `Number(undefined)` is `NaN` (`none`); the empty and
all-whitespace strings coerce to `0`; an optionally signed run of decimal
digits coerces to that integer; anything else is `NaN`.  (Fractional,
hexadecimal and exponent notations are outside the model.) -/
def jsNumber (v : Option String) : Option Int :=
  match v with
  | none => none
  | some s =>
    match trimChars s.data with
    | [] => some 0
    | '-' :: rest => (digitsToNat rest).map (fun n => -(n : Int))
    | '+' :: rest => (digitsToNat rest).map (fun n => (n : Int))
    | cs => (digitsToNat cs).map (fun n => (n : Int))

/-- JS `x || d` on numbers: `NaN` and `0` are falsy and give the default. -/
def jsOrDefault (n : Option Int) (d : Int) : Int :=
  match n with
  | none => d
  | some k => if k = 0 then d else k

/-- The timeout passed to `startServerWithTimeout` in `app`
(src/app.ts:96): `Number(process.env.STARTUP_TIMEOUT_MS) || 30000`. -/
def startupTimeout (env : Option String) : Int :=
  jsOrDefault (jsNumber env) 30000

/-! ## Global fault handlers (src/app.ts:102-117) -/

/-- What a process-level fault handler does: lines it logs, and the exit
code it requests (`none` = the process continues running). -/
structure HandlerResult where
  log : List String
  exit : Option Nat
deriving DecidableEq, Repr

/-- The `unhandledRejection` listener (src/app.ts:102-108): always logs;
exits with code 1 only when `CRASH_ON_UNHANDLED_REJECTION` is `'true'`. -/
def onUnhandledRejection (crashEnv : Option String) (reason : String) :
    HandlerResult :=
  { log := ["[UNHANDLED REJECTION] " ++ reason]
    exit := if crashEnv = some "true" then some 1 else none }

/-- The `uncaughtException` listener (src/app.ts:110-117): always logs;
exits with code 1 only when `CRASH_ON_UNCAUGHT_EXCEPTION` is `'true'`. -/
def onUncaughtException (crashEnv : Option String) (message : String) :
    HandlerResult :=
  { log := ["[UNCAUGHT EXCEPTION] " ++ message]
    exit := if crashEnv = some "true" then some 1 else none }

/-! ## Graceful shutdown (src/app.ts:63-64, 120-137)

The shutdown handler is split at its single suspension point
(`await serverInstance.stop()`): `shutdownSignal` is the synchronous part
run when a termination signal is delivered (it tests and sets the
`shuttingDown` flag *before* any suspension), and `shutdownStopSettled` is
the continuation run when the `stop()` promise settles.  Because the event
loop is single-threaded, any concurrent delivery of signals and the
settlement of `stop()` is an interleaving of these atomic steps. -/

/-- Outcome of `serverInstance.stop()`. -/
inductive StopOutcome where
  | resolves : StopOutcome
  | rejects : String → StopOutcome
deriving DecidableEq, Repr

/-- A loaded server module: the behaviour of its `start()` promise and
whether it exposes a `stop` function (`typeof serverInstance.stop ===
'function'`). -/
structure ServerModule where
  startP : PromiseT
  hasStop : Bool
deriving DecidableEq, Repr

/-- Process-global state relevant to shutdown: the module-level
`serverInstance` and `shuttingDown` variables, plus observations of the
effects (number of `stop()` invocations, a pending awaited `stop()`, the
exit code passed to `process.exit`, the log). -/
structure ProcState where
  serverInstance : Option ServerModule
  shuttingDown : Bool
  stopCalls : Nat
  pendingStop : Bool
  exitCode : Option Nat
  log : List String
deriving DecidableEq, Repr

/-- Module-level initial state (src/app.ts:63-64): `serverInstance = null`,
`shuttingDown = false`. -/
def initialProcState : ProcState :=
  { serverInstance := none, shuttingDown := false, stopCalls := 0
    pendingStop := false, exitCode := none, log := [] }

/-- The line logged on receipt of a termination signal (src/app.ts:123). -/
def shutdownLogLine (signal : String) : String :=
  "[SHUTDOWN] Received " ++ signal ++ ", shutting down gracefully..."

/-- Synchronous prefix of `shutdown(signal)` (src/app.ts:120-126): the
re-entrancy guard, the flag set, the log line, and — when a live handle
with a `stop` function exists — the invocation of `stop()` (after which
the handler suspends awaiting it); without such a handle the `try` body is
done and the `finally` runs `process.exit(0)` at once. -/
def shutdownSignal (signal : String) (s : ProcState) : ProcState :=
  if s.shuttingDown then s
  else
    match s.serverInstance with
    | some srv =>
        if srv.hasStop then
          { s with shuttingDown := true
                   log := s.log ++ [shutdownLogLine signal]
                   stopCalls := s.stopCalls + 1
                   pendingStop := true }
        else
          { s with shuttingDown := true
                   log := s.log ++ [shutdownLogLine signal]
                   exitCode := some 0 }
    | none =>
        { s with shuttingDown := true
                 log := s.log ++ [shutdownLogLine signal]
                 exitCode := some 0 }

/-- Continuation of `shutdown` when the awaited `stop()` settles
(src/app.ts:126-133): resolution logs completion, rejection is caught and
logged, and the `finally` block runs `process.exit(0)` in both cases. -/
def shutdownStopSettled (o : StopOutcome) (s : ProcState) : ProcState :=
  if s.pendingStop then
    match o with
    | StopOutcome.resolves =>
        { s with pendingStop := false, exitCode := some 0
                 log := s.log ++ ["[SHUTDOWN] server.stop() completed"] }
    | StopOutcome.rejects m =>
        { s with pendingStop := false, exitCode := some 0
                 log := s.log ++ ["[SHUTDOWN ERROR] " ++ m] }
  else s

/-- An event-loop event relevant to shutdown: delivery of a termination
signal (running `shutdownSignal`), or settlement of the awaited
`stop()`. -/
inductive ShutdownEvent where
  | signal : String → ShutdownEvent
  | stopSettled : StopOutcome → ShutdownEvent
deriving DecidableEq, Repr

/-- One event-loop step. -/
def stepEvent (s : ProcState) (e : ShutdownEvent) : ProcState :=
  match e with
  | ShutdownEvent.signal sig => shutdownSignal sig s
  | ShutdownEvent.stopSettled o => shutdownStopSettled o s

/-- Run a (serialized) sequence of event-loop events. -/
def runEvents (s : ProcState) (es : List ShutdownEvent) : ProcState :=
  es.foldl stepEvent s

/-- Count the shutdown invocations in an event sequence. -/
def countSignals (es : List ShutdownEvent) : Nat :=
  es.countP (fun e => match e with
    | ShutdownEvent.signal _ => true
    | _ => false)

/-! ## Bootstrap pipeline (`app`, src/app.ts:74-99, 140-145) -/

/-- The steps of the bootstrap pipeline, in source order. -/
inductive Step where
  | auditCheck : Step
  | validatorLoad : Step
  | validatorExec : Step
  | serverLoad : Step
  | serverStart : Step
  | recordHandle : Step
deriving DecidableEq, Repr

/-- The fixed order in which `app` attempts its steps. -/
def canonicalSteps : List Step :=
  [Step.auditCheck, Step.validatorLoad, Step.validatorExec,
   Step.serverLoad, Step.serverStart, Step.recordHandle]

/-- External-world data that `app` consumes: the audit world, the outcome
of `import(validatePath)`, of `await validateDependencies()`, of
`import('./server.js')` (yielding the server module on success), and the
raw `STARTUP_TIMEOUT_MS` environment variable. -/
structure BootWorld where
  audit : AuditWorld
  validatorLoad : Except String Unit
  validatorRun : Except String Unit
  serverLoad : Except String ServerModule
  startupTimeoutEnv : Option String

/-- Result of awaiting the bootstrap: still pending (a step's promise
never settles), fulfilled, or rejected with an error message. -/
inductive AsyncResult where
  | pending : AsyncResult
  | ok : AsyncResult
  | error : String → AsyncResult
deriving DecidableEq, Repr

/-- Observable outcome of a bootstrap run: which steps were attempted (in
order), the settlement of `app()`'s promise, the final module-level
`serverInstance`, and the log. -/
structure BootState where
  trace : List Step
  result : AsyncResult
  serverInstance : Option ServerModule
  log : List String
deriving Repr

/-- `app` (src/app.ts:74-99): the sequential fail-fast pipeline.  Each
failing step short-circuits with its descriptive error: an audit block
throws `Startup blocked: …`; a validator-load failure is mapped by the
`.catch` to `Failed to load dependency validator`; a validator failure
propagates as-is; a server-load failure is mapped to
`Failed to load server module`; a start rejection (the server's own error
or `Server start timed out`) propagates as-is.  Only after the timed start
resolves is `serverInstance` assigned and `[SERVER] started` logged. -/
def app (w : BootWorld) : BootState :=
  let auditResult := (runOptionalAuditCheck w.audit).1
  if auditResult.ok = false then
    { trace := [Step.auditCheck]
      result := AsyncResult.error ("Startup blocked: " ++ auditResult.message)
      serverInstance := none, log := [] }
  else
    match w.validatorLoad with
    | Except.error _ =>
        { trace := [Step.auditCheck, Step.validatorLoad]
          result := AsyncResult.error "Failed to load dependency validator"
          serverInstance := none, log := [] }
    | Except.ok _ =>
      match w.validatorRun with
      | Except.error e =>
          { trace := [Step.auditCheck, Step.validatorLoad, Step.validatorExec]
            result := AsyncResult.error e
            serverInstance := none, log := [] }
      | Except.ok _ =>
        match w.serverLoad with
        | Except.error _ =>
            { trace := [Step.auditCheck, Step.validatorLoad,
                        Step.validatorExec, Step.serverLoad]
              result := AsyncResult.error "Failed to load server module"
              serverInstance := none, log := [] }
        | Except.ok server =>
          match startServerWithTimeout server.startP
                  (startupTimeout w.startupTimeoutEnv) with
          | some (_, Outcome.rejected e) =>
              { trace := [Step.auditCheck, Step.validatorLoad,
                          Step.validatorExec, Step.serverLoad,
                          Step.serverStart]
                result := AsyncResult.error e
                serverInstance := none, log := [] }
          | some (_, Outcome.resolved) =>
              { trace := canonicalSteps
                result := AsyncResult.ok
                serverInstance := some server
                log := ["[SERVER] started"] }
          | none =>
              { trace := [Step.auditCheck, Step.validatorLoad,
                          Step.validatorExec, Step.serverLoad,
                          Step.serverStart]
                result := AsyncResult.pending
                serverInstance := none, log := [] }

/-- `niceErrorLog` (src/app.ts:53-61): the sanitized startup-error log,
with the stack trace gated behind `DEBUG=true`. -/
def niceErrorLog (debugEnv : Option String) (message stack : String) :
    List String :=
  ["[STARTUP ERROR] " ++ message] ++
    (if debugEnv = some "true" then [stack]
     else ["Set DEBUG=true to see stack trace."])

/-- The top-level `.catch` on `app()` (src/app.ts:140-145): a bootstrap
rejection is logged and the process exits with code 1; otherwise no exit
is requested from the bootstrap path. -/
def bootExit (w : BootWorld) : Option Nat :=
  match (app w).result with
  | AsyncResult.error _ => some 1
  | _ => none

/-- The log produced by the top-level `.catch` (via `niceErrorLog`). -/
def bootErrorLog (debugEnv : Option String) (w : BootWorld) (stack : String) :
    List String :=
  match (app w).result with
  | AsyncResult.error e => niceErrorLog debugEnv e stack
  | _ => []

/-! ## Helper lemmas about the shutdown state machine -/

theorem serverInstance_shutdownSignal (sig : String) (s : ProcState) :
    (shutdownSignal sig s).serverInstance = s.serverInstance := by
  unfold shutdownSignal
  split
  · rfl
  · split
    · split <;> rfl
    · rfl

theorem serverInstance_shutdownStopSettled (o : StopOutcome) (s : ProcState) :
    (shutdownStopSettled o s).serverInstance = s.serverInstance := by
  unfold shutdownStopSettled
  split
  · cases o <;> rfl
  · rfl

theorem serverInstance_stepEvent (s : ProcState) (e : ShutdownEvent) :
    (stepEvent s e).serverInstance = s.serverInstance := by
  cases e with
  | signal sig => exact serverInstance_shutdownSignal sig s
  | stopSettled o => exact serverInstance_shutdownStopSettled o s

theorem shuttingDown_shutdownSignal (sig : String) (s : ProcState) :
    (shutdownSignal sig s).shuttingDown = true := by
  unfold shutdownSignal
  split
  · assumption
  · split
    · split <;> rfl
    · rfl

theorem shuttingDown_shutdownStopSettled (o : StopOutcome) (s : ProcState) :
    (shutdownStopSettled o s).shuttingDown = s.shuttingDown := by
  unfold shutdownStopSettled
  split
  · cases o <;> rfl
  · rfl

theorem shuttingDown_stepEvent_mono (s : ProcState) (e : ShutdownEvent)
    (h : s.shuttingDown = true) : (stepEvent s e).shuttingDown = true := by
  cases e with
  | signal sig => exact shuttingDown_shutdownSignal sig s
  | stopSettled o => rw [stepEvent, shuttingDown_shutdownStopSettled]; exact h

theorem shuttingDown_runEvents_mono (es : List ShutdownEvent) (s : ProcState)
    (h : s.shuttingDown = true) : (runEvents s es).shuttingDown = true := by
  induction es generalizing s with
  | nil => exact h
  | cons e es ih => exact ih _ (shuttingDown_stepEvent_mono s e h)

theorem shuttingDown_runEvents_of_signal (es : List ShutdownEvent)
    (s : ProcState) (h : 1 ≤ countSignals es) :
    (runEvents s es).shuttingDown = true := by
  induction es generalizing s with
  | nil => simp [countSignals] at h
  | cons e es ih =>
      cases e with
      | signal sig =>
          exact shuttingDown_runEvents_mono es _
            (shuttingDown_shutdownSignal sig s)
      | stopSettled o =>
          simp [countSignals, List.countP_cons] at h
          exact ih _ (by simpa [countSignals] using h)

/-- The key accounting invariant: with a live handle exposing `stop`, the
number of `stop()` invocations equals one exactly when the `shuttingDown`
flag has been set. -/
theorem stopCalls_stepEvent (s : ProcState) (e : ShutdownEvent)
    (srv : ServerModule) (hs : s.serverInstance = some srv)
    (hstop : srv.hasStop = true)
    (h : s.stopCalls = if s.shuttingDown then 1 else 0) :
    (stepEvent s e).stopCalls =
      if (stepEvent s e).shuttingDown then 1 else 0 := by
  cases e with
  | signal sig =>
      rw [stepEvent]
      unfold shutdownSignal
      split
      · next hflag => simpa [hflag] using h
      · next hflag =>
          rw [hs]
          simp only [hstop, if_true]
          simp only [Bool.not_eq_true] at hflag
          simp [h, hflag]
  | stopSettled o =>
      rw [stepEvent]
      unfold shutdownStopSettled
      split
      · cases o <;> simpa using h
      · exact h

theorem stopCalls_runEvents (es : List ShutdownEvent) (s : ProcState)
    (srv : ServerModule) (hs : s.serverInstance = some srv)
    (hstop : srv.hasStop = true)
    (h : s.stopCalls = if s.shuttingDown then 1 else 0) :
    (runEvents s es).stopCalls =
      if (runEvents s es).shuttingDown then 1 else 0 := by
  induction es generalizing s with
  | nil => exact h
  | cons e es ih =>
      refine ih (stepEvent s e) ?_ ?_
      · rw [serverInstance_stepEvent]; exact hs
      · exact stopCalls_stepEvent s e srv hs hstop h

/-! ## Claim theorems -/

/-- **C2.** `shutdown(signal)` is idempotent: over any serialized
event-loop interleaving containing two or more shutdown invocations
(signals), starting from a live server handle that exposes `stop`, the
server's `stop()` is invoked exactly once; and every re-entrant call while
the `shuttingDown` flag is true returns immediately as a no-op. -/
theorem shutdown_idempotent_stop_once (s : ProcState)
    (es : List ShutdownEvent) (srv : ServerModule)
    (hs : s.serverInstance = some srv) (hstop : srv.hasStop = true)
    (hflag : s.shuttingDown = false) (hcalls : s.stopCalls = 0)
    (hsigs : 2 ≤ countSignals es) :
    (runEvents s es).stopCalls = 1 ∧
    (∀ sig s', s'.shuttingDown = true → shutdownSignal sig s' = s') := by
  constructor
  · have hinv := stopCalls_runEvents es s srv hs hstop (by simp [hflag, hcalls])
    have hsd := shuttingDown_runEvents_of_signal es s (le_trans (by norm_num) hsigs)
    simpa [hsd] using hinv
  · intro sig s' h
    unfold shutdownSignal
    simp [h]

/-- Witness for C2: two signals in quick succession (the settlement of the
awaited `stop()` interleaved) invoke `stop()` exactly once. -/
theorem shutdown_idempotent_stop_once_witness :
    (runEvents
      { serverInstance := some { startP := none, hasStop := true }
        shuttingDown := false, stopCalls := 0, pendingStop := false
        exitCode := none, log := [] }
      [ShutdownEvent.signal "SIGINT", ShutdownEvent.signal "SIGTERM",
       ShutdownEvent.stopSettled StopOutcome.resolves]).stopCalls = 1 :=
  (shutdown_idempotent_stop_once _ _ { startP := none, hasStop := true }
    rfl rfl rfl rfl (by decide)).1

/-- **C3.** Whatever `stop()` does during graceful shutdown — resolves,
rejects, or the handle lacks a `stop` function (or there is no handle at
all) — the handler logs any `stop()` error rather than propagating it and
always records `process.exit(0)`. -/
theorem shutdown_always_exits_zero (s : ProcState) (sig : String)
    (hflag : s.shuttingDown = false) :
    (s.serverInstance = none →
       (shutdownSignal sig s).exitCode = some 0 ∧
       (shutdownSignal sig s).stopCalls = s.stopCalls) ∧
    (∀ srv, s.serverInstance = some srv → srv.hasStop = false →
       (shutdownSignal sig s).exitCode = some 0 ∧
       (shutdownSignal sig s).stopCalls = s.stopCalls) ∧
    (∀ srv o, s.serverInstance = some srv → srv.hasStop = true →
       (shutdownStopSettled o (shutdownSignal sig s)).exitCode = some 0 ∧
       (∀ m, o = StopOutcome.rejects m →
          ("[SHUTDOWN ERROR] " ++ m) ∈
            (shutdownStopSettled o (shutdownSignal sig s)).log)) := by
  refine ⟨?_, ?_, ?_⟩
  · intro hnone
    unfold shutdownSignal
    simp [hflag, hnone]
  · intro srv hsome hnostop
    unfold shutdownSignal
    simp [hflag, hsome, hnostop]
  · intro srv o hsome hstop
    have hsteps :
        shutdownSignal sig s =
          { s with shuttingDown := true
                   log := s.log ++ [shutdownLogLine sig]
                   stopCalls := s.stopCalls + 1
                   pendingStop := true } := by
      unfold shutdownSignal
      simp [hflag, hsome, hstop]
    rw [hsteps]
    cases o with
    | resolves => simp [shutdownStopSettled]
    | rejects m => simp [shutdownStopSettled]

/-- Witness for C3: a rejecting `stop()` is logged and the process still
exits with code 0. -/
theorem shutdown_always_exits_zero_witness :
    (shutdownStopSettled (StopOutcome.rejects "stop failed")
       (shutdownSignal "SIGTERM"
         { serverInstance := some { startP := none, hasStop := true }
           shuttingDown := false, stopCalls := 0, pendingStop := false
           exitCode := none, log := [] })).exitCode = some 0 ∧
    ("[SHUTDOWN ERROR] " ++ "stop failed") ∈
      (shutdownStopSettled (StopOutcome.rejects "stop failed")
       (shutdownSignal "SIGTERM"
         { serverInstance := some { startP := none, hasStop := true }
           shuttingDown := false, stopCalls := 0, pendingStop := false
           exitCode := none, log := [] })).log := by
  have h := (shutdown_always_exits_zero
    { serverInstance := some { startP := none, hasStop := true }
      shuttingDown := false, stopCalls := 0, pendingStop := false
      exitCode := none, log := [] } "SIGTERM" rfl).2.2
    { startP := none, hasStop := true }
    (StopOutcome.rejects "stop failed") rfl rfl
  exact ⟨h.1, h.2 "stop failed" rfl⟩

/-- **C1 (counterexample).** The claim "`startServerWithTimeout` resolves
successfully if and only if `start()` *settles* before the deadline" fails:
a `start()` that rejects at time 0 settles well before a 50 ms deadline,
yet the raced call rejects (with the server's own error), it does not
resolve successfully. -/
theorem startServerWithTimeout_settles_iff_counterexample :
    ¬ (isSuccess (startServerWithTimeout
          (some (0, Outcome.rejected "listen EADDRINUSE")) 50) = true ↔
       settlesBefore (some ((0 : Int), Outcome.rejected "listen EADDRINUSE"))
          50 = true) := by
  decide

/-- **C1 (amended).** `startServerWithTimeout(serverModule, timeoutMs)`
resolves successfully if and only if the server's `start()` *resolves*
(not merely settles) by the deadline; a `start()` that rejects by the
deadline makes the call reject with `start()`'s own error; and for a
`start()` that never settles, the call rejects once `timeoutMs` elapses
with the timeout-specific error `Server start timed out` (the abandoned
`start()` is not cancelled: the model provides no cancellation, the losing
promise's own settlement is simply ignored). -/
theorem startServerWithTimeout_spec (startP : PromiseT) (timeoutMs : Int) :
    (isSuccess (startServerWithTimeout startP timeoutMs) = true ↔
       ∃ t, startP = some (t, Outcome.resolved) ∧ t ≤ timeoutMs) ∧
    (∀ t m, startP = some (t, Outcome.rejected m) → t ≤ timeoutMs →
       startServerWithTimeout startP timeoutMs =
         some (t, Outcome.rejected m)) ∧
    (startP = none →
       startServerWithTimeout startP timeoutMs =
         some (timeoutMs, Outcome.rejected "Server start timed out")) := by
  refine ⟨?_, ?_, ?_⟩
  · match startP with
    | none => simp [startServerWithTimeout, race, isSuccess]
    | some (t, Outcome.resolved) =>
        by_cases h : t ≤ timeoutMs <;>
          simp [startServerWithTimeout, race, isSuccess, h]
    | some (t, Outcome.rejected m) =>
        by_cases h : t ≤ timeoutMs <;>
          simp [startServerWithTimeout, race, isSuccess, h]
  · intro t m h hle
    subst h
    simp [startServerWithTimeout, race, hle]
  · intro h
    subst h
    simp [startServerWithTimeout, race]

/-- Witness for C1 (amended): a `start()` that rejects at 3 ms loses
nothing to the 50 ms timer — the call rejects with the server's own error
— and a `start()` that never settles is raced out at the 50 ms deadline
with the timeout-specific error. -/
theorem startServerWithTimeout_spec_witness :
    startServerWithTimeout (some (3, Outcome.rejected "listen EADDRINUSE"))
        50 = some (3, Outcome.rejected "listen EADDRINUSE") ∧
    startServerWithTimeout none 50 =
      some (50, Outcome.rejected "Server start timed out") :=
  ⟨(startServerWithTimeout_spec
      (some (3, Outcome.rejected "listen EADDRINUSE")) 50).2.1
      3 "listen EADDRINUSE" rfl (by decide),
   (startServerWithTimeout_spec none 50).2.2 rfl⟩

/-- **C4.** With `ENFORCE_AUDIT='true'`, the audit check reports failure
(`ok = false`) exactly when the tool failed to execute, the attempted JSON
parse of its (nonempty) output failed, or the summed vulnerability count
is positive; in every other case `ok = true`.  The embedding is a total
function, so failure is always a return value, never a throw. -/
theorem runOptionalAuditCheck_fail_iff (w : AuditWorld)
    (h : w.enforceAudit = some "true") :
    ((runOptionalAuditCheck w).1.ok = false ↔ auditFailCondition w) := by
  obtain ⟨env, ⟨err, out⟩, parse⟩ := w
  simp only [AuditWorld.enforceAudit] at h
  subst h
  unfold runOptionalAuditCheck auditFailCondition
  cases err with
  | some m => simp
  | none =>
      by_cases hout : out = ""
      · subst hout
        simp
      · cases parse with
        | error u => simp [hout, Except.toOption]
        | ok j =>
            by_cases hv : 0 < totalVulns j
            · simp [hout, hv, Except.toOption]
            · simp [hout, hv, not_lt.mp hv, Except.toOption]

/-- Witness for C4: an audit run reporting two high-severity
vulnerabilities is a failure, and the failure condition holds. -/
theorem runOptionalAuditCheck_fail_iff_witness :
    ((runOptionalAuditCheck
        { enforceAudit := some "true"
          spawn := { error := none, stdout := "{...}" }
          parse := Except.ok { metadataVulns := some [2] } }).1.ok = false ↔
     auditFailCondition
        { enforceAudit := some "true"
          spawn := { error := none, stdout := "{...}" }
          parse := Except.ok { metadataVulns := some [2] } }) :=
  runOptionalAuditCheck_fail_iff _ rfl

/-- **C5.** When `ENFORCE_AUDIT` is unset or anything other than `'true'`
(including `'false'`), the audit check returns `{ok:true}` immediately and
the external audit tool is not invoked. -/
theorem runOptionalAuditCheck_skipped (w : AuditWorld)
    (h : w.enforceAudit ≠ some "true") :
    runOptionalAuditCheck w =
      ({ ok := true, message := "audit skipped", details := none }, false) := by
  unfold runOptionalAuditCheck
  simp [h]

/-- Witness for C5: `ENFORCE_AUDIT='false'` skips the audit. -/
theorem runOptionalAuditCheck_skipped_witness :
    runOptionalAuditCheck
        { enforceAudit := some "false"
          spawn := { error := none, stdout := "" }
          parse := Except.error () } =
      ({ ok := true, message := "audit skipped", details := none }, false) :=
  runOptionalAuditCheck_skipped _ (by decide)

/-- **C8.** Even with `ENFORCE_AUDIT='true'`, when the tool runs without
an execution error but produces empty stdout, the check returns
`{ok:true, message:'no audit output'}` — for every possible `JSON.parse`
behaviour, i.e. no parse is consulted — and the tool was invoked. -/
theorem runOptionalAuditCheck_empty_stdout (w : AuditWorld)
    (henv : w.enforceAudit = some "true")
    (herr : w.spawn.error = none)
    (hout : w.spawn.stdout = "") :
    runOptionalAuditCheck w =
      ({ ok := true, message := "no audit output", details := none }, true) := by
  unfold runOptionalAuditCheck
  simp [henv, herr, hout]

/-- Witness for C8: empty stdout passes even though parsing the empty
string would fail. -/
theorem runOptionalAuditCheck_empty_stdout_witness :
    runOptionalAuditCheck
        { enforceAudit := some "true"
          spawn := { error := none, stdout := "" }
          parse := Except.error () } =
      ({ ok := true, message := "no audit output", details := none }, true) :=
  runOptionalAuditCheck_empty_stdout _ rfl rfl rfl

/-- **C7.** The global fault handlers always log the fault, and request a
process exit only under explicit operator opt-in: the
`unhandledRejection` handler exits exactly when
`CRASH_ON_UNHANDLED_REJECTION='true'`, and the `uncaughtException` handler
exits exactly when `CRASH_ON_UNCAUGHT_EXCEPTION='true'`; otherwise no
exit is requested and the process continues running. -/
theorem fault_handlers_opt_in (crashR crashE : Option String)
    (reason message : String) :
    ("[UNHANDLED REJECTION] " ++ reason) ∈
        (onUnhandledRejection crashR reason).log ∧
    ((onUnhandledRejection crashR reason).exit.isSome = true ↔
        crashR = some "true") ∧
    ("[UNCAUGHT EXCEPTION] " ++ message) ∈
        (onUncaughtException crashE message).log ∧
    ((onUncaughtException crashE message).exit.isSome = true ↔
        crashE = some "true") := by
  refine ⟨by simp [onUnhandledRejection], ?_,
          by simp [onUncaughtException], ?_⟩
  · by_cases h : crashR = some "true" <;> simp [onUnhandledRejection, h]
  · by_cases h : crashE = some "true" <;> simp [onUncaughtException, h]

/-- **C9.** Whenever the JS numeric conversion of `STARTUP_TIMEOUT_MS`
yields `NaN` (a non-numeric string) or `0` (the string `'0'`), the
computed server-start deadline falls back to the default 30000 ms, because
the timeout is `Number(value) || 30000`. -/
theorem startupTimeout_default (s : String)
    (h : jsNumber (some s) = none ∨ jsNumber (some s) = some 0) :
    startupTimeout (some s) = 30000 := by
  rcases h with h | h <;> simp [startupTimeout, jsOrDefault, h]

/-- Witness for C9: the non-numeric string `abc` (NaN) and the string `0`
both fall back to the 30000 ms default. -/
theorem startupTimeout_default_witness :
    jsNumber (some "abc") = none ∧ startupTimeout (some "abc") = 30000 ∧
    jsNumber (some "0") = some 0 ∧ startupTimeout (some "0") = 30000 :=
  ⟨by decide, startupTimeout_default "abc" (Or.inl (by decide)),
   by decide, startupTimeout_default "0" (Or.inr (by decide))⟩

/-- **C6.** The bootstrap attempts its steps in the fixed order audit
check, validator load, validator execution, server load, timed server
start, handle recording (the attempted steps are always an initial segment
of that order); it succeeds exactly when every step ran; any failing step
short-circuits, its descriptive error is logged by the top-level handler
and the process exits with status 1; the bootstrap path never exits with
code 0. -/
theorem bootstrap_order_failfast (w : BootWorld) :
    (app w).trace = canonicalSteps.take (app w).trace.length ∧
    ((app w).result = AsyncResult.ok ↔ (app w).trace = canonicalSteps) ∧
    (∀ e, (app w).result = AsyncResult.error e →
       bootExit w = some 1 ∧
       ∀ d st, ("[STARTUP ERROR] " ++ e) ∈ bootErrorLog d w st) ∧
    bootExit w ≠ some 0 := by
  obtain ⟨aw, vl, vr, sl, env⟩ := w
  by_cases ha : ((runOptionalAuditCheck aw).1).ok = false
  · simp [app, bootExit, bootErrorLog, niceErrorLog, canonicalSteps, ha]
  · cases vl with
    | error e₁ =>
        simp [app, bootExit, bootErrorLog, niceErrorLog, canonicalSteps, ha]
    | ok u₁ =>
      cases vr with
      | error e₂ =>
          simp [app, bootExit, bootErrorLog, niceErrorLog, canonicalSteps, ha]
      | ok u₂ =>
        cases sl with
        | error e₃ =>
            simp [app, bootExit, bootErrorLog, niceErrorLog, canonicalSteps,
                  ha]
        | ok server =>
          rcases hrace : startServerWithTimeout server.startP
              (startupTimeout env) with _ | ⟨t, o⟩
          · simp [app, bootExit, bootErrorLog, niceErrorLog, canonicalSteps,
                  ha, hrace]
          · cases o with
            | resolved =>
                simp [app, bootExit, bootErrorLog, niceErrorLog,
                      canonicalSteps, ha, hrace]
            | rejected m =>
                simp [app, bootExit, bootErrorLog, niceErrorLog,
                      canonicalSteps, ha, hrace]

/-- A concrete world whose dependency validator fails. -/
def bootWorldValidatorFails : BootWorld :=
  { audit := { enforceAudit := none
               spawn := { error := none, stdout := "" }
               parse := Except.error () }
    validatorLoad := Except.ok ()
    validatorRun := Except.error "dependency check failed"
    serverLoad := Except.error "unused"
    startupTimeoutEnv := none }

/-- Witness for C6: a failing dependency validator aborts the bootstrap
after three steps and the process exits with status 1. -/
theorem bootstrap_order_failfast_witness :
    bootExit bootWorldValidatorFails = some 1 :=
  ((bootstrap_order_failfast bootWorldValidatorFails).2.2.1
    "dependency check failed" rfl).1

/-- **C10.** `serverInstance` is non-null only when the whole bootstrap
succeeded, i.e. only once the timed server start resolved within the
deadline; and a shutdown signal arriving while `serverInstance` is still
null invokes no `stop()` and still exits the process with code 0. -/
theorem serverInstance_only_after_start (w : BootWorld) :
    (∀ srv, (app w).serverInstance = some srv →
       w.serverLoad = Except.ok srv ∧
       (app w).result = AsyncResult.ok ∧
       isSuccess (startServerWithTimeout srv.startP
         (startupTimeout w.startupTimeoutEnv)) = true) ∧
    (∀ s sig, s.serverInstance = none → s.shuttingDown = false →
       (shutdownSignal sig s).stopCalls = s.stopCalls ∧
       (shutdownSignal sig s).exitCode = some 0) := by
  constructor
  · intro srv hsrv
    obtain ⟨aw, vl, vr, sl, env⟩ := w
    by_cases ha : ((runOptionalAuditCheck aw).1).ok = false
    · simp [app, ha] at hsrv
    · cases vl with
      | error e₁ => simp [app, ha] at hsrv
      | ok u₁ =>
        cases vr with
        | error e₂ => simp [app, ha] at hsrv
        | ok u₂ =>
          cases sl with
          | error e₃ => simp [app, ha] at hsrv
          | ok server =>
            rcases hrace : startServerWithTimeout server.startP
                (startupTimeout env) with _ | ⟨t, o⟩
            · simp [app, ha, hrace] at hsrv
            · cases o with
              | rejected m => simp [app, ha, hrace] at hsrv
              | resolved =>
                  have heq : server = srv := by
                    simpa [app, ha, hrace] using hsrv
                  subst heq
                  refine ⟨rfl, ?_, ?_⟩
                  · simp [app, ha, hrace]
                  · simp [isSuccess, hrace]
  · intro s sig h₁ h₂
    unfold shutdownSignal
    simp [h₁, h₂]

/-- A concrete server module whose `start()` resolves after 10 ms. -/
def fastServer : ServerModule :=
  { startP := some (10, Outcome.resolved), hasStop := true }

/-- A concrete world whose whole bootstrap succeeds. -/
def bootWorldOk : BootWorld :=
  { audit := { enforceAudit := none
               spawn := { error := none, stdout := "" }
               parse := Except.error () }
    validatorLoad := Except.ok ()
    validatorRun := Except.ok ()
    serverLoad := Except.ok fastServer
    startupTimeoutEnv := none }

/-- Witness for C10: a successful bootstrap records the handle, and a
signal delivered to the pristine initial state (no handle) exits 0 with no
`stop()` call. -/
theorem serverInstance_only_after_start_witness :
    ((app bootWorldOk).result = AsyncResult.ok ∧
     isSuccess (startServerWithTimeout fastServer.startP
       (startupTimeout bootWorldOk.startupTimeoutEnv)) = true) ∧
    ((shutdownSignal "SIGINT" initialProcState).stopCalls =
        initialProcState.stopCalls ∧
     (shutdownSignal "SIGINT" initialProcState).exitCode = some 0) := by
  refine ⟨?_, (serverInstance_only_after_start bootWorldOk).2
    initialProcState "SIGINT" rfl rfl⟩
  have h := (serverInstance_only_after_start bootWorldOk).1 fastServer
    (by decide)
  exact ⟨h.2.1, h.2.2⟩

end JuiceShopStartup
